import Mathlib

/-!
Verification of the ATO single-train simulator core
(`ato_simulator/ato.py`, class `ATOSingleTrain`).

The Python code works on floats; the embedding models the arithmetic over
the real numbers, which is the idealisation the design document itself uses
for its force-balance formulas.  Python exceptions are modelled with
`Except`: a failed `assert` becomes `ATOError.assertionError` carrying the
assert's message, and a float division whose denominator is exactly zero
becomes `ATOError.zeroDivisionError` (Python raises `ZeroDivisionError`
there).  The `np.ndarray` state of shape `(2,)` is modelled as a `List ℝ`,
so that the shape assertion in `step` is expressible; the three context
dictionaries, which `step` receives but never reads, are modelled as
association lists.
-/

/-- Python exceptions that the translated code can raise: a failed `assert`
statement (with its message) or a division by zero. -/
inductive ATOError where
  | assertionError (msg : String) : ATOError
  | zeroDivisionError : ATOError
deriving DecidableEq

/-- Model of the Python `dict` arguments (`track_info`, `journey_profile`,
`segment_profile`).  `step` never reads them, so only their presence as a
value matters; an association list is enough. -/
abbrev PyDict := List (String × ℝ)

/-- The six constant parameters stored by `ATOSingleTrain.__init__`. -/
structure ATOSingleTrain where
  a_davis_formula : ℝ
  b_davis_formula : ℝ
  c_davis_formula : ℝ
  train_mass : ℝ
  maximum_traction_force : ℝ
  maximum_braking_force : ℝ

/-- The `info` dictionary returned by `ATOSingleTrain.step`, one field per
key, in the order the Python code lists them. -/
structure StepInfo where
  gradient : ℝ
  curvature : ℝ
  curvature_radius : ℝ
  max_speed : ℝ
  speed_overshoot : ℝ
  aero_drag_and_rolling_res : ℝ
  gradient_force : ℝ
  curvature_force : ℝ
  input_force : ℝ

/-- `ATOSingleTrain.aero_drag_and_rolling_res`: the Davis formula
`a + b * abs(velocity) + c * velocity ** 2`. -/
noncomputable def ATOSingleTrain.aero_drag_and_rolling_res
    (self : ATOSingleTrain) (velocity : ℝ) : ℝ :=
  self.a_davis_formula + self.b_davis_formula * |velocity|
    + self.c_davis_formula * velocity ^ 2

/-- `ATOSingleTrain.gradient_force`: `train_mass * 9.81 * np.sin(gradient)`. -/
noncomputable def ATOSingleTrain.gradient_force
    (self : ATOSingleTrain) (gradient : ℝ) : ℝ :=
  self.train_mass * 9.81 * Real.sin gradient

/-- `ATOSingleTrain.curvature_force`:
`train_mass * 9.81 * k_curvature / curvature_radius`.  A zero radius makes
the Python float division raise `ZeroDivisionError`, modelled by the
`Except` error branch. -/
noncomputable def ATOSingleTrain.curvature_force
    (self : ATOSingleTrain) (k_curvature curvature_radius : ℝ) :
    Except ATOError ℝ :=
  if curvature_radius = 0 then .error .zeroDivisionError
  else .ok (self.train_mass * 9.81 * k_curvature / curvature_radius)

/-- `ATOSingleTrain.step`, translated statement by statement.  The three
`assert`s come first, in source order (the shape assert is the `match` on
the state list).  The hard-coded placeholder context values follow, then the
force balance, the explicit Euler update, the speed clamp (including the
in-place update `new_state[1] = min(new_state[1], max_speed)`, rendered as
`List.set`), and the `info` dictionary.  `total_force / train_mass` is a
Python float division, so a zero `train_mass` raises `ZeroDivisionError`,
modelled by the corresponding error branch. -/
noncomputable def ATOSingleTrain.step
    (self : ATOSingleTrain) (state : List ℝ) (action dt : ℝ)
    (track_info journey_profile segment_profile : PyDict) :
    Except ATOError (List ℝ × StepInfo) :=
  if ¬(action ≥ -1 ∧ action ≤ 1) then
    .error (.assertionError "Action must be in the range [-1, 1]")
  else
    match state with
    | [pos, vel] =>
      if ¬ dt > 0 then
        .error (.assertionError "Time step must be positive")
      else
        let gradient : ℝ := 0
        let k_curvature : ℝ := 0
        let curvature_radius : ℝ := 1
        let max_speed : ℝ := 100 / 3.6
        let input_force : ℝ :=
          if action ≥ 0 then action * self.maximum_traction_force
          else action * self.maximum_braking_force
        let gradient_force := self.gradient_force gradient
        match self.curvature_force k_curvature curvature_radius with
        | .error e => .error e
        | .ok curvature_force =>
          let aero_drag_and_rolling_res := self.aero_drag_and_rolling_res vel
          let total_force :=
            input_force - gradient_force - curvature_force
              - aero_drag_and_rolling_res
          if self.train_mass = 0 then .error .zeroDivisionError
          else
            let acceleration := total_force / self.train_mass
            let new_state : List ℝ := [pos + vel * dt, acceleration * dt + vel]
            let speed_overshoot := max 0 (new_state.getD 1 0 - max_speed)
            let new_state := new_state.set 1 (min (new_state.getD 1 0) max_speed)
            .ok (new_state,
              { gradient := gradient
                curvature := k_curvature
                curvature_radius := curvature_radius
                max_speed := max_speed
                speed_overshoot := speed_overshoot
                aero_drag_and_rolling_res := aero_drag_and_rolling_res
                gradient_force := gradient_force
                curvature_force := curvature_force
                input_force := input_force })
    | _ =>
      .error (.assertionError "State must be a 2D array with shape (2,)")

/-- The new-state component of a `step` result, `none` on error. -/
def stepState (r : Except ATOError (List ℝ × StepInfo)) : Option (List ℝ) :=
  r.toOption.map Prod.fst

/-- The info-dictionary component of a `step` result, `none` on error. -/
def stepInfo (r : Except ATOError (List ℝ × StepInfo)) : Option StepInfo :=
  r.toOption.map Prod.snd

/-- The commanded force inside `step`:
`action * maximum_traction_force if action >= 0 else
action * maximum_braking_force`. -/
noncomputable def ATOSingleTrain.commanded_force
    (self : ATOSingleTrain) (action : ℝ) : ℝ :=
  if action ≥ 0 then action * self.maximum_traction_force
  else action * self.maximum_braking_force

/-- The acceleration computed inside `step` at start-of-step velocity `v`:
net force (commanded minus gradient, curvature and resistance forces, the
latter three evaluated at the placeholder context and at `v`) divided by the
train mass. -/
noncomputable def ATOSingleTrain.step_acceleration
    (self : ATOSingleTrain) (action v : ℝ) : ℝ :=
  (self.commanded_force action - self.gradient_force 0
    - self.train_mass * 9.81 * 0 / 1 - self.aero_drag_and_rolling_res v)
    / self.train_mass

/-- The train of `example.py` and of the worked example in the design
document: Davis coefficients `0.5, 0.1, 0.01`, mass `100000` kg, maximum
traction and braking forces `500000` N. -/
noncomputable def exampleTrain : ATOSingleTrain :=
  { a_davis_formula := 0.5
    b_davis_formula := 0.1
    c_davis_formula := 0.01
    train_mass := 100000
    maximum_traction_force := 500000
    maximum_braking_force := 500000 }

/-- A coasting train: zero Davis coefficients, unit mass, zero maximum
forces. -/
noncomputable def coastTrain : ATOSingleTrain :=
  { a_davis_formula := 0
    b_davis_formula := 0
    c_davis_formula := 0
    train_mass := 1
    maximum_traction_force := 0
    maximum_braking_force := 0 }

/-- Closed form of `step` on a well-formed input: with the preconditions
satisfied and a nonzero mass, `step` returns the Euler-updated, speed-clamped
state and the placeholder-valued info record.  Shared evaluation lemma for
the claim theorems below. -/
theorem step_ok_eq (self : ATOSingleTrain) (p v action dt : ℝ)
    (t j s : PyDict) (h1 : -1 ≤ action) (h2 : action ≤ 1) (h3 : 0 < dt)
    (hm : self.train_mass ≠ 0) :
    self.step [p, v] action dt t j s =
      .ok ([p + v * dt,
            min (self.step_acceleration action v * dt + v) (100 / 3.6)],
        { gradient := 0
          curvature := 0
          curvature_radius := 1
          max_speed := 100 / 3.6
          speed_overshoot :=
            max 0 (self.step_acceleration action v * dt + v - 100 / 3.6)
          aero_drag_and_rolling_res := self.aero_drag_and_rolling_res v
          gradient_force := self.gradient_force 0
          curvature_force := self.train_mass * 9.81 * 0 / 1
          input_force := self.commanded_force action }) := by
  have hA : ¬¬(action ≥ -1 ∧ action ≤ 1) := not_not_intro ⟨h1, h2⟩
  have hdt : ¬¬dt > 0 := not_not_intro h3
  simp only [ATOSingleTrain.step, ATOSingleTrain.curvature_force,
    if_neg hA, if_neg hdt, if_neg hm, if_neg (one_ne_zero (α := ℝ)),
    ATOSingleTrain.step_acceleration, ATOSingleTrain.commanded_force,
    List.getD, List.set, List.getElem?_cons_succ, List.getElem?_cons_zero,
    Option.getD_some]
  rfl

/-- Recogniser for a `step` outcome that is a failed `assert` (a
precondition violation), as opposed to a normal return or a division
error. -/
def isAssertionFailure : Except ATOError (List ℝ × StepInfo) → Bool
  | .error (.assertionError _) => true
  | _ => false

/-- An assert-failure outcome carries no state. -/
theorem stepState_eq_none_of_assertion (r : Except ATOError (List ℝ × StepInfo))
    (h : isAssertionFailure r = true) : stepState r = none := by
  cases r with
  | error e => rfl
  | ok x => simp [isAssertionFailure] at h

/-- `step` fails on the action-range assert when `action` is out of
`[-1, 1]`. -/
theorem step_action_error (self : ATOSingleTrain) (state : List ℝ)
    (action dt : ℝ) (t j s : PyDict) (h : ¬(action ≥ -1 ∧ action ≤ 1)) :
    self.step state action dt t j s =
      .error (.assertionError "Action must be in the range [-1, 1]") := by
  unfold ATOSingleTrain.step
  rw [if_pos h]

/-- `step` fails on the shape assert when the state list does not have
exactly two elements (and the action assert passed). -/
theorem step_shape_error (self : ATOSingleTrain) (state : List ℝ)
    (action dt : ℝ) (t j s : PyDict) (hA : action ≥ -1 ∧ action ≤ 1)
    (h : state.length ≠ 2) :
    self.step state action dt t j s =
      .error (.assertionError "State must be a 2D array with shape (2,)") := by
  unfold ATOSingleTrain.step
  rw [if_neg (not_not_intro hA)]
  rcases state with _ | ⟨p, _ | ⟨v, _ | ⟨w, rest⟩⟩⟩
  · rfl
  · rfl
  · exact absurd rfl h
  · rfl

/-- `step` fails on the time-step assert when `dt ≤ 0` (and the earlier
asserts passed). -/
theorem step_dt_error (self : ATOSingleTrain) (p v action dt : ℝ)
    (t j s : PyDict) (hA : action ≥ -1 ∧ action ≤ 1) (h : ¬dt > 0) :
    self.step [p, v] action dt t j s =
      .error (.assertionError "Time step must be positive") := by
  unfold ATOSingleTrain.step
  rw [if_neg (not_not_intro hA)]
  simp only [if_pos h]

/-- With the three asserts passed but a zero train mass, the division
`total_force / train_mass` raises `ZeroDivisionError`. -/
theorem step_mass_zero (self : ATOSingleTrain) (p v action dt : ℝ)
    (t j s : PyDict) (hA : action ≥ -1 ∧ action ≤ 1) (hdt : dt > 0)
    (hm : self.train_mass = 0) :
    self.step [p, v] action dt t j s = .error .zeroDivisionError := by
  unfold ATOSingleTrain.step
  rw [if_neg (not_not_intro hA)]
  simp only [if_neg (not_not_intro hdt), ATOSingleTrain.curvature_force,
    if_neg (one_ne_zero (α := ℝ)), if_pos hm]

/-- C3: a call to `step` fails with a precondition-violation (assert)
error exactly when one of the three preconditions — action in `[-1, 1]`,
state of length two, positive `dt` — is violated, and in that case no state
is returned. -/
theorem step_precondition_iff (self : ATOSingleTrain) (state : List ℝ)
    (action dt : ℝ) (t j s : PyDict) :
    (isAssertionFailure (self.step state action dt t j s) = true ↔
      ¬(action ≥ -1 ∧ action ≤ 1 ∧ state.length = 2 ∧ dt > 0)) ∧
    (¬(action ≥ -1 ∧ action ≤ 1 ∧ state.length = 2 ∧ dt > 0) →
      stepState (self.step state action dt t j s) = none) := by
  have main : isAssertionFailure (self.step state action dt t j s) = true ↔
      ¬(action ≥ -1 ∧ action ≤ 1 ∧ state.length = 2 ∧ dt > 0) := by
    constructor
    · intro htrue hall
      obtain ⟨h1, h2, hlen, hdt⟩ := hall
      obtain ⟨p, v, rfl⟩ := List.length_eq_two.mp hlen
      by_cases hm : self.train_mass = 0
      · rw [step_mass_zero self p v action dt t j s ⟨h1, h2⟩ hdt hm] at htrue
        simp [isAssertionFailure] at htrue
      · rw [step_ok_eq self p v action dt t j s h1 h2 hdt hm] at htrue
        simp [isAssertionFailure] at htrue
    · intro hneg
      by_cases hA : action ≥ -1 ∧ action ≤ 1
      · by_cases hlen : state.length = 2
        · by_cases hdt : dt > 0
          · exact absurd ⟨hA.1, hA.2, hlen, hdt⟩ hneg
          · obtain ⟨p, v, rfl⟩ := List.length_eq_two.mp hlen
            rw [step_dt_error self p v action dt t j s hA hdt]
            rfl
        · rw [step_shape_error self state action dt t j s hA hlen]
          rfl
      · rw [step_action_error self state action dt t j s hA]
        rfl
  exact ⟨main, fun hneg => stepState_eq_none_of_assertion _ (main.mpr hneg)⟩

/-- C3 witness: at `action = 1.5` (with a well-formed state and positive
`dt`) the call fails with an assert error and returns no state. -/
theorem step_precondition_iff_witness :
    isAssertionFailure (exampleTrain.step [0, 0] 1.5 0.01 [] [] []) = true ∧
      stepState (exampleTrain.step [0, 0] 1.5 0.01 [] [] []) = none := by
  have h := step_precondition_iff exampleTrain [0, 0] 1.5 0.01 [] [] []
  have hbad : ¬((1.5 : ℝ) ≥ -1 ∧ (1.5 : ℝ) ≤ 1 ∧
      ([(0 : ℝ), 0]).length = 2 ∧ (0.01 : ℝ) > 0) := by
    intro hall
    have := hall.2.1
    norm_num at this
  exact ⟨h.1.mpr hbad, h.2 hbad⟩

/-- C1: on a well-formed call, `step` performs exactly one explicit Euler
substep: commanded force by the sign of the action, the three resistive
forces evaluated at the start-of-step velocity, net force divided by mass,
position advanced by `v·dt`, velocity advanced by `a·dt` (then passed to
the speed clamp). -/
theorem step_euler_update (self : ATOSingleTrain) (p v action dt : ℝ)
    (t j s : PyDict) (h1 : -1 ≤ action) (h2 : action ≤ 1) (h3 : 0 < dt)
    (hm : self.train_mass ≠ 0) :
    stepState (self.step [p, v] action dt t j s) =
      some [p + v * dt,
        min (self.step_acceleration action v * dt + v) (100 / 3.6)] ∧
    self.step_acceleration action v =
      ((if action ≥ 0 then action * self.maximum_traction_force
        else action * self.maximum_braking_force)
        - self.gradient_force 0 - self.train_mass * 9.81 * 0 / 1
        - self.aero_drag_and_rolling_res v) / self.train_mass := by
  constructor
  · rw [step_ok_eq self p v action dt t j s h1 h2 h3 hm]
    rfl
  · rfl

/-- C1 witness: the Euler-update theorem applied to the example train at
rest with full traction and `dt = 1`. -/
theorem step_euler_update_witness :
    (-1 : ℝ) ≤ 1 ∧ (1 : ℝ) ≤ 1 ∧ (0 : ℝ) < 1 ∧
      exampleTrain.train_mass ≠ 0 ∧
      stepState (exampleTrain.step [0, 0] 1 1 [] [] []) =
        some [0 + 0 * 1,
          min (exampleTrain.step_acceleration 1 0 * 1 + 0) (100 / 3.6)] := by
  have hm : exampleTrain.train_mass ≠ 0 := by norm_num [exampleTrain]
  exact ⟨by norm_num, by norm_num, by norm_num, hm,
    (step_euler_update exampleTrain 0 0 1 1 [] [] []
      (by norm_num) (by norm_num) (by norm_num) hm).1⟩

/-- C2: on a well-formed call the returned velocity is the minimum of the
unclamped Euler velocity and the speed limit (hence never exceeds the
limit, with no lower bound applied), the diagnostics overshoot entry is
`max 0 (unclamped − limit)`, and the returned position is the unclamped
`p + v·dt`. -/
theorem step_speed_limit_clamp (self : ATOSingleTrain) (p v action dt : ℝ)
    (t j s : PyDict) (h1 : -1 ≤ action) (h2 : action ≤ 1) (h3 : 0 < dt)
    (hm : self.train_mass ≠ 0) :
    stepState (self.step [p, v] action dt t j s) =
      some [p + v * dt,
        min (self.step_acceleration action v * dt + v) (100 / 3.6)] ∧
    (stepInfo (self.step [p, v] action dt t j s)).map StepInfo.speed_overshoot
      = some (max 0 (self.step_acceleration action v * dt + v - 100 / 3.6)) ∧
    min (self.step_acceleration action v * dt + v) (100 / 3.6) ≤ 100 / 3.6 := by
  rw [step_ok_eq self p v action dt t j s h1 h2 h3 hm]
  exact ⟨rfl, rfl, min_le_right _ _⟩

/-- C2 witness: the clamp theorem applied to the example train at rest with
full traction over a long `dt = 10` step (whose unclamped velocity exceeds
the limit). -/
theorem step_speed_limit_clamp_witness :
    (-1 : ℝ) ≤ 1 ∧ (1 : ℝ) ≤ 1 ∧ (0 : ℝ) < 10 ∧
      exampleTrain.train_mass ≠ 0 ∧
      (stepInfo (exampleTrain.step [0, 0] 1 10 [] [] [])).map
          StepInfo.speed_overshoot
        = some (max 0 (exampleTrain.step_acceleration 1 0 * 10 + 0
            - 100 / 3.6)) := by
  have hm : exampleTrain.train_mass ≠ 0 := by norm_num [exampleTrain]
  exact ⟨by norm_num, by norm_num, by norm_num, hm,
    (step_speed_limit_clamp exampleTrain 0 0 1 10 [] [] []
      (by norm_num) (by norm_num) (by norm_num) hm).2.1⟩

/-- C4 counterexample: with the sample coefficients the linear coefficient
`b = 0.1` is nonzero, yet `aero_drag_and_rolling_res 10` equals
`aero_drag_and_rolling_res (-10)` (both are `2.5`), refuting the claim that
the equality holds only when `b = 0`. -/
theorem aero_even_despite_nonzero_b :
    exampleTrain.b_davis_formula = 0.1 ∧ (0.1 : ℝ) ≠ 0 ∧
      exampleTrain.aero_drag_and_rolling_res 10
        = exampleTrain.aero_drag_and_rolling_res (-10) := by
  refine ⟨rfl, by norm_num, ?_⟩
  simp [exampleTrain, ATOSingleTrain.aero_drag_and_rolling_res]

/-- C4 amended: the Davis resistance is an even function of velocity for
every choice of coefficients, since the linear term takes `abs(velocity)`
and the quadratic term squares it; at the sample coefficients
`a = 0.5, b = 0.1, c = 0.01` and `v = 10` its value is exactly `2.5`. -/
theorem aero_drag_even :
    (∀ (self : ATOSingleTrain) (v : ℝ),
      self.aero_drag_and_rolling_res v = self.aero_drag_and_rolling_res (-v)) ∧
      exampleTrain.aero_drag_and_rolling_res 10 = 2.5 := by
  constructor
  · intro self v
    simp [ATOSingleTrain.aero_drag_and_rolling_res]
  · norm_num [exampleTrain, ATOSingleTrain.aero_drag_and_rolling_res, abs_of_nonneg]

/-- The acceleration of the worked example at start-of-step velocity zero:
`(500000 − 0.5) / 100000 = 4.999995`. -/
theorem exampleTrain_acceleration :
    exampleTrain.step_acceleration 1 0 = 4.999995 := by
  norm_num [ATOSingleTrain.step_acceleration, ATOSingleTrain.commanded_force,
    ATOSingleTrain.gradient_force, ATOSingleTrain.aero_drag_and_rolling_res,
    exampleTrain, Real.sin_zero]

/-- C5 counterexample: the worked example's returned state is
`(0, 0.04999995)`; its velocity component `0.04999995` is more than `4`
away from the claimed value `4.999995` (which is the acceleration, not the
velocity), so the returned state is not approximately `(0.0, 4.999995)`. -/
theorem example_step_velocity_not_accel :
    stepState (exampleTrain.step [0, 0] 1 0.01 [] [] []) =
      some [0, 0.04999995] ∧ |(0.04999995 : ℝ) - 4.999995| > 4 := by
  constructor
  · rw [step_ok_eq exampleTrain 0 0 1 0.01 [] [] []
      (by norm_num) (by norm_num) (by norm_num) (by norm_num [exampleTrain])]
    rw [exampleTrain_acceleration]
    simp only [stepState, Except.toOption, Option.map]
    norm_num [min_def]
  · rw [abs_of_nonpos (by norm_num)]
    norm_num

/-- C5 amended: the worked example returns exactly
`newState = (0, 0.04999995)` in real arithmetic, with acceleration
`(500000 − 0.5) / 100000 = 4.999995` and velocity after one step
`0.04999995`. -/
theorem example_step_exact :
    stepState (exampleTrain.step [0, 0] 1 0.01 [] [] []) =
      some [0, 0.04999995] ∧
      exampleTrain.step_acceleration 1 0 = (500000 - 0.5) / 100000 := by
  constructor
  · rw [step_ok_eq exampleTrain 0 0 1 0.01 [] [] []
      (by norm_num) (by norm_num) (by norm_num) (by norm_num [exampleTrain])]
    rw [exampleTrain_acceleration]
    simp only [stepState, Except.toOption, Option.map]
    norm_num [min_def]
  · rw [exampleTrain_acceleration]
    norm_num

/-- Repeated application of `step` with a fixed action, time step and
context, propagating errors, as the driving loop of `example.py` does. -/
noncomputable def ATOSingleTrain.iterSteps (self : ATOSingleTrain)
    (action dt : ℝ) (t j s : PyDict) : ℕ → List ℝ → Except ATOError (List ℝ)
  | 0, state => .ok state
  | n + 1, state =>
    match self.step state action dt t j s with
    | .error e => .error e
    | .ok (state2, _) => self.iterSteps action dt t j s n state2

/-- With zero Davis coefficients, zero action, zero gradient and curvature,
the step acceleration vanishes. -/
theorem coast_acceleration (self : ATOSingleTrain) (v : ℝ)
    (ha : self.a_davis_formula = 0) (hb : self.b_davis_formula = 0)
    (hc : self.c_davis_formula = 0) :
    self.step_acceleration 0 v = 0 := by
  simp [ATOSingleTrain.step_acceleration, ATOSingleTrain.commanded_force,
    ATOSingleTrain.gradient_force, ATOSingleTrain.aero_drag_and_rolling_res,
    ha, hb, hc]

/-- C6 counterexample: coasting (zero action, zero force coefficients) from
velocity `30 m/s` — above the hard-coded `100/3.6 m/s` limit — one step
returns velocity `100/3.6 ≠ 30`: the speed clamp changes the velocity even
though no force acts. -/
theorem coast_clamp_counterexample :
    stepState (coastTrain.step [0, 30] 0 1 [] [] []) =
      some [30, 100 / 3.6] ∧ (100 / 3.6 : ℝ) ≠ 30 := by
  constructor
  · rw [step_ok_eq coastTrain 0 30 0 1 [] [] []
      (by norm_num) (by norm_num) (by norm_num) (by norm_num [coastTrain])]
    rw [coast_acceleration coastTrain 30 rfl rfl rfl]
    simp only [stepState, Except.toOption, Option.map]
    norm_num [min_def]
  · norm_num

/-- C6 amended: with zero action, zero Davis coefficients, zero gradient
and curvature, a nonzero mass, and an initial velocity not above the
hard-coded `100/3.6 m/s` speed limit, the velocity is unchanged after any
number of steps and the position advances by exactly `v·dt` each step. -/
theorem coast_velocity_invariant (self : ATOSingleTrain) (p v dt : ℝ)
    (t j s : PyDict) (n : ℕ)
    (ha : self.a_davis_formula = 0) (hb : self.b_davis_formula = 0)
    (hc : self.c_davis_formula = 0) (hm : self.train_mass ≠ 0)
    (hdt : 0 < dt) (hv : v ≤ 100 / 3.6) :
    self.iterSteps 0 dt t j s n [p, v] = .ok [p + n * (v * dt), v] := by
  induction n generalizing p with
  | zero => simp [ATOSingleTrain.iterSteps]
  | succ n ih =>
    rw [ATOSingleTrain.iterSteps,
      step_ok_eq self p v 0 dt t j s (by norm_num) (by norm_num) hdt hm,
      coast_acceleration self v ha hb hc]
    rw [zero_mul, zero_add, min_eq_left hv]
    show self.iterSteps 0 dt t j s n [p + v * dt, v] = _
    rw [ih]
    congr 2
    push_cast
    ring

/-- C6 witness: the coasting invariant applied to the unit-mass zero-force
train from state `(0, 1)` for three steps of `dt = 1`. -/
theorem coast_velocity_invariant_witness :
    coastTrain.a_davis_formula = 0 ∧ coastTrain.b_davis_formula = 0 ∧
      coastTrain.c_davis_formula = 0 ∧ coastTrain.train_mass ≠ 0 ∧
      (0 : ℝ) < 1 ∧ (1 : ℝ) ≤ 100 / 3.6 ∧
      coastTrain.iterSteps 0 1 [] [] [] 3 [0, 1] = .ok [3, 1] := by
  have h := coast_velocity_invariant coastTrain 0 1 1 [] [] [] 3
    rfl rfl rfl (by norm_num [coastTrain]) (by norm_num) (by norm_num)
  norm_num at h
  exact ⟨rfl, rfl, rfl, by norm_num [coastTrain], by norm_num, by norm_num, h⟩

/-- Every normal return of `step` carries the hard-coded placeholder
context values in its info record: zero gradient, zero curvature factor,
unit curvature radius, and the `100/3.6 m/s` speed limit. -/
theorem stepInfo_placeholder (self : ATOSingleTrain) (state : List ℝ)
    (action dt : ℝ) (t j s : PyDict) :
    ∀ info ∈ stepInfo (self.step state action dt t j s),
      info.gradient = 0 ∧ info.curvature = 0 ∧ info.curvature_radius = 1 ∧
        info.max_speed = 100 / 3.6 := by
  intro info hinfo
  by_cases hA : action ≥ -1 ∧ action ≤ 1
  · by_cases hlen : state.length = 2
    · obtain ⟨p, v, rfl⟩ := List.length_eq_two.mp hlen
      by_cases hdt : dt > 0
      · by_cases hm : self.train_mass = 0
        · rw [step_mass_zero self p v action dt t j s hA hdt hm] at hinfo
          simp [stepInfo, Except.toOption] at hinfo
        · rw [step_ok_eq self p v action dt t j s hA.1 hA.2 hdt hm] at hinfo
          simp only [stepInfo, Except.toOption, Option.map,
            Option.mem_def, Option.some.injEq] at hinfo
          subst hinfo
          exact ⟨rfl, rfl, rfl, rfl⟩
      · rw [step_dt_error self p v action dt t j s hA hdt] at hinfo
        simp [stepInfo, Except.toOption] at hinfo
    · rw [step_shape_error self state action dt t j s hA hlen] at hinfo
      simp [stepInfo, Except.toOption] at hinfo
  · rw [step_action_error self state action dt t j s hA] at hinfo
    simp [stepInfo, Except.toOption] at hinfo

/-- C7: `step` is a pure function of the state, action, time step and
stored constants: its result is syntactically independent of the three
context arguments (any two choices of dictionaries give equal outputs), and
every normal return reports the fixed placeholder context — zero gradient,
zero curvature factor, unit radius, `100/3.6 m/s` limit. -/
theorem step_ignores_context (self : ATOSingleTrain) (state : List ℝ)
    (action dt : ℝ) (t1 j1 s1 t2 j2 s2 : PyDict) :
    self.step state action dt t1 j1 s1 = self.step state action dt t2 j2 s2 ∧
      ∀ info ∈ stepInfo (self.step state action dt t1 j1 s1),
        info.gradient = 0 ∧ info.curvature = 0 ∧ info.curvature_radius = 1 ∧
          info.max_speed = 100 / 3.6 :=
  ⟨rfl, stepInfo_placeholder self state action dt t1 j1 s1⟩

/-- C7 witness: the context-independence theorem applied to a coasting call
with empty and with nonempty context dictionaries, reading the placeholder
facts off the returned info record. -/
theorem step_ignores_context_witness :
    (coastTrain.step [0, 0] 0 1 [] [] []
      = coastTrain.step [0, 0] 0 1 [("g", 1)] [("j", 2)] [("s", 3)]) ∧
    ({ gradient := 0
       curvature := 0
       curvature_radius := 1
       max_speed := 100 / 3.6
       speed_overshoot :=
         max 0 (coastTrain.step_acceleration 0 0 * 1 + 0 - 100 / 3.6)
       aero_drag_and_rolling_res := coastTrain.aero_drag_and_rolling_res 0
       gradient_force := coastTrain.gradient_force 0
       curvature_force := coastTrain.train_mass * 9.81 * 0 / 1
       input_force := coastTrain.commanded_force 0 } : StepInfo).gradient
      = 0 := by
  have h := step_ignores_context coastTrain [0, 0] 0 1
    [] [] [] [("g", 1)] [("j", 2)] [("s", 3)]
  refine ⟨h.1, (h.2 _ ?_).1⟩
  rw [step_ok_eq coastTrain 0 0 0 1 [] [] []
    (by norm_num) (by norm_num) (by norm_num) (by norm_num [coastTrain])]
  rfl

/-- C8: the gradient force law is `mass · 9.81 · sin(angle)` for every
angle; it is exactly `0` at angle `0`, exactly `mass · 9.81` at angle
`π/2`, and positive for an uphill angle in `(0, π)` on a positive-mass
train (`step` subtracts this force from the commanded effort in its net
force, see the net-force formula of the step theorem). -/
theorem gradient_force_law (self : ATOSingleTrain) (angle : ℝ) :
    self.gradient_force angle = self.train_mass * 9.81 * Real.sin angle ∧
      self.gradient_force 0 = 0 ∧
      self.gradient_force (Real.pi / 2) = self.train_mass * 9.81 ∧
      (0 < angle → angle < Real.pi → 0 < self.train_mass →
        0 < self.gradient_force angle) := by
  refine ⟨rfl, ?_, ?_, ?_⟩
  · simp [ATOSingleTrain.gradient_force]
  · simp [ATOSingleTrain.gradient_force, Real.sin_pi_div_two]
  · intro h1 h2 hm
    have hsin : 0 < Real.sin angle := Real.sin_pos_of_pos_of_lt_pi h1 h2
    have h981 : (0 : ℝ) < 9.81 := by norm_num
    exact mul_pos (mul_pos hm h981) hsin

/-- C8 witness: the gradient-force law applied to the example train at
angle `π/2`, discharging the uphill-positivity hypotheses there. -/
theorem gradient_force_law_witness :
    0 < Real.pi / 2 ∧ Real.pi / 2 < Real.pi ∧
      0 < exampleTrain.train_mass ∧
      0 < exampleTrain.gradient_force (Real.pi / 2) := by
  have h1 : 0 < Real.pi / 2 := by positivity
  have h2 : Real.pi / 2 < Real.pi := by linarith [Real.pi_pos]
  have h3 : 0 < exampleTrain.train_mass := by norm_num [exampleTrain]
  exact ⟨h1, h2, h3,
    (gradient_force_law exampleTrain (Real.pi / 2)).2.2.2 h1 h2 h3⟩

/-- A heap of Python objects as the caller sees them: train objects and
`np.ndarray` arrays, addressed by references (natural numbers).  Array
addresses below `nextArray` are the already-allocated ones; `np.array(...)`
allocates at `nextArray`. -/
structure PyHeap where
  trains : ℕ → ATOSingleTrain
  arrays : ℕ → List ℝ
  nextArray : ℕ

/-- Allocation of a fresh array (`np.array([...])`): the new object lives
at the previously unused address `nextArray`, which is returned with the
grown heap. -/
noncomputable def PyHeap.allocArray (h : PyHeap) (v : List ℝ) :
    PyHeap × ℕ :=
  ({ h with
      arrays := fun a => if a = h.nextArray then v else h.arrays a
      nextArray := h.nextArray + 1 },
    h.nextArray)

/-- In-place element assignment `arr[i] = x` on the array at address `r`. -/
noncomputable def PyHeap.writeArray (h : PyHeap) (r i : ℕ) (x : ℝ) :
    PyHeap :=
  { h with
      arrays := fun a => if a = r then (h.arrays a).set i x else h.arrays a }

/-- Reference-level translation of `ATOSingleTrain.step`: the caller passes
references into the heap rather than values.  Every heap effect of the
Python body appears explicitly: `self`'s constants and the caller's state
array are only read (`h.trains selfRef`, `h.arrays stateRef`);
`np.array([...])` is an allocation; the clamp assignment
`new_state[1] = min(new_state[1], max_speed)` is a `writeArray` at the
address that allocation returned.  The final heap is returned with the
result, error branches leaving the heap as received. -/
noncomputable def stepRef (h : PyHeap) (selfRef stateRef : ℕ)
    (action dt : ℝ) (track_info journey_profile segment_profile : PyDict) :
    PyHeap × Except ATOError (ℕ × StepInfo) :=
  if ¬(action ≥ -1 ∧ action ≤ 1) then
    (h, .error (.assertionError "Action must be in the range [-1, 1]"))
  else
    match h.arrays stateRef with
    | [pos, vel] =>
      if ¬ dt > 0 then
        (h, .error (.assertionError "Time step must be positive"))
      else
        let gradient : ℝ := 0
        let k_curvature : ℝ := 0
        let curvature_radius : ℝ := 1
        let max_speed : ℝ := 100 / 3.6
        let input_force : ℝ :=
          if action ≥ 0 then action * (h.trains selfRef).maximum_traction_force
          else action * (h.trains selfRef).maximum_braking_force
        let gradient_force := (h.trains selfRef).gradient_force gradient
        match (h.trains selfRef).curvature_force k_curvature curvature_radius with
        | .error e => (h, .error e)
        | .ok curvature_force =>
          let aero_drag_and_rolling_res :=
            (h.trains selfRef).aero_drag_and_rolling_res vel
          let total_force :=
            input_force - gradient_force - curvature_force
              - aero_drag_and_rolling_res
          if (h.trains selfRef).train_mass = 0 then
            (h, .error .zeroDivisionError)
          else
            let acceleration := total_force / (h.trains selfRef).train_mass
            let alloc :=
              h.allocArray [pos + vel * dt, acceleration * dt + vel]
            let h1 := alloc.1
            let new_state := alloc.2
            let speed_overshoot :=
              max 0 ((h1.arrays new_state).getD 1 0 - max_speed)
            let h2 := h1.writeArray new_state 1
              (min ((h1.arrays new_state).getD 1 0) max_speed)
            (h2, .ok (new_state,
              { gradient := gradient
                curvature := k_curvature
                curvature_radius := curvature_radius
                max_speed := max_speed
                speed_overshoot := speed_overshoot
                aero_drag_and_rolling_res := aero_drag_and_rolling_res
                gradient_force := gradient_force
                curvature_force := curvature_force
                input_force := input_force }))
    | _ =>
      (h, .error (.assertionError "State must be a 2D array with shape (2,)"))

/-- The frame conjunction for an error outcome of `stepRef`: given that the
reference-level call returns the heap unchanged with error `e` and the pure
`step` returns the same error, all six frame/refinement properties hold. -/
theorem step_frame_of_error (h : PyHeap) (selfRef stateRef : ℕ)
    (action dt : ℝ) (t j s : PyDict) (e : ATOError)
    (hs : stepRef h selfRef stateRef action dt t j s = (h, .error e))
    (hp : (h.trains selfRef).step (h.arrays stateRef) action dt t j s
      = .error e) :
    (stepRef h selfRef stateRef action dt t j s).1.trains = h.trains ∧
    (∀ a, a < h.nextArray →
      (stepRef h selfRef stateRef action dt t j s).1.arrays a
        = h.arrays a) ∧
    (stateRef < h.nextArray →
      (stepRef h selfRef stateRef action dt t j s).1.arrays stateRef
          = h.arrays stateRef ∧
        ∀ r info, (stepRef h selfRef stateRef action dt t j s).2
          = .ok (r, info) → r ≠ stateRef) ∧
    (∀ r info, (stepRef h selfRef stateRef action dt t j s).2
      = .ok (r, info) → r = h.nextArray) ∧
    (∀ e2, (stepRef h selfRef stateRef action dt t j s).2 = .error e2 →
      (h.trains selfRef).step (h.arrays stateRef) action dt t j s
        = .error e2) ∧
    (∀ r info, (stepRef h selfRef stateRef action dt t j s).2
      = .ok (r, info) →
      (h.trains selfRef).step (h.arrays stateRef) action dt t j s
        = .ok ((stepRef h selfRef stateRef action dt t j s).1.arrays r,
            info)) := by
  rw [hs]
  refine ⟨rfl, fun a ha => rfl, fun hlt => ⟨rfl, fun r info hr => ?_⟩,
    fun r info hr => ?_, fun e2 he => ?_, fun r info hr => ?_⟩
  · exact absurd hr (by simp)
  · exact absurd hr (by simp)
  · simp only [Except.error.injEq] at he
    rw [hp, he]
  · exact absurd hr (by simp)

/-- C9: a `step` call leaves every pre-existing heap object unchanged and
returns a freshly allocated state.  In the reference-level translation
`stepRef`: the train objects (hence the six stored constants) are untouched,
every previously allocated array — in particular the caller's state array —
still holds its old value, the returned reference is the fresh allocation
(never an alias of the caller's state), and the call's result refines the
pure `step` function: same error, or a fresh array holding exactly the pure
`step`'s new state together with the same diagnostics. -/
theorem step_frame (h : PyHeap) (selfRef stateRef : ℕ)
    (action dt : ℝ) (t j s : PyDict) :
    (stepRef h selfRef stateRef action dt t j s).1.trains = h.trains ∧
    (∀ a, a < h.nextArray →
      (stepRef h selfRef stateRef action dt t j s).1.arrays a
        = h.arrays a) ∧
    (stateRef < h.nextArray →
      (stepRef h selfRef stateRef action dt t j s).1.arrays stateRef
          = h.arrays stateRef ∧
        ∀ r info, (stepRef h selfRef stateRef action dt t j s).2
          = .ok (r, info) → r ≠ stateRef) ∧
    (∀ r info, (stepRef h selfRef stateRef action dt t j s).2
      = .ok (r, info) → r = h.nextArray) ∧
    (∀ e2, (stepRef h selfRef stateRef action dt t j s).2 = .error e2 →
      (h.trains selfRef).step (h.arrays stateRef) action dt t j s
        = .error e2) ∧
    (∀ r info, (stepRef h selfRef stateRef action dt t j s).2
      = .ok (r, info) →
      (h.trains selfRef).step (h.arrays stateRef) action dt t j s
        = .ok ((stepRef h selfRef stateRef action dt t j s).1.arrays r,
            info)) := by
  by_cases hA : action ≥ -1 ∧ action ≤ 1
  · rcases hst : h.arrays stateRef with _ | ⟨p, _ | ⟨v, _ | ⟨w, rest⟩⟩⟩
    · have hframe := step_frame_of_error h selfRef stateRef action dt t j s
        (.assertionError "State must be a 2D array with shape (2,)")
        (by unfold stepRef; rw [if_neg (not_not_intro hA), hst])
        (step_shape_error _ _ _ _ _ _ _ hA (by rw [hst]; simp))
      rwa [hst] at hframe
    · have hframe := step_frame_of_error h selfRef stateRef action dt t j s
        (.assertionError "State must be a 2D array with shape (2,)")
        (by unfold stepRef; rw [if_neg (not_not_intro hA), hst])
        (step_shape_error _ _ _ _ _ _ _ hA (by rw [hst]; simp))
      rwa [hst] at hframe
    · by_cases hdt : dt > 0
      · by_cases hm : (h.trains selfRef).train_mass = 0
        · have hframe := step_frame_of_error h selfRef stateRef action dt
            t j s .zeroDivisionError
            (by
              unfold stepRef
              rw [if_neg (not_not_intro hA), hst]
              simp only [if_neg (not_not_intro hdt),
                ATOSingleTrain.curvature_force,
                if_neg (one_ne_zero (α := ℝ)), if_pos hm])
            (by
              rw [hst]
              exact step_mass_zero _ _ _ _ _ _ _ _ hA hdt hm)
          rwa [hst] at hframe
        · have hmain : stepRef h selfRef stateRef action dt t j s =
              ((h.allocArray [p + v * dt,
                  (h.trains selfRef).step_acceleration action v * dt
                    + v]).1.writeArray h.nextArray 1
                (min ((h.trains selfRef).step_acceleration action v * dt + v)
                  (100 / 3.6)),
               .ok (h.nextArray,
                { gradient := 0
                  curvature := 0
                  curvature_radius := 1
                  max_speed := 100 / 3.6
                  speed_overshoot :=
                    max 0 ((h.trains selfRef).step_acceleration action v * dt
                      + v - 100 / 3.6)
                  aero_drag_and_rolling_res :=
                    (h.trains selfRef).aero_drag_and_rolling_res v
                  gradient_force := (h.trains selfRef).gradient_force 0
                  curvature_force :=
                    (h.trains selfRef).train_mass * 9.81 * 0 / 1
                  input_force :=
                    (h.trains selfRef).commanded_force action })) := by
            unfold stepRef
            rw [if_neg (not_not_intro hA), hst]
            simp only [if_neg (not_not_intro hdt),
              ATOSingleTrain.curvature_force,
              if_neg (one_ne_zero (α := ℝ)), if_neg hm,
              ATOSingleTrain.step_acceleration,
              ATOSingleTrain.commanded_force, PyHeap.allocArray,
              List.getD_cons_succ, List.getD_cons_zero, if_pos]
          refine ⟨?_, ?_, ?_, ?_, ?_, ?_⟩
          · rw [hmain]
            rfl
          · intro a ha
            rw [hmain]
            simp only [PyHeap.writeArray, PyHeap.allocArray]
            rw [if_neg (Nat.ne_of_lt ha), if_neg (Nat.ne_of_lt ha)]
          · intro hlt
            constructor
            · rw [hmain]
              simp only [PyHeap.writeArray, PyHeap.allocArray]
              rw [if_neg (Nat.ne_of_lt hlt), if_neg (Nat.ne_of_lt hlt)]
              exact hst
            · intro r info hr
              rw [hmain] at hr
              simp only [Except.ok.injEq, Prod.mk.injEq] at hr
              rw [← hr.1]
              exact (Nat.ne_of_lt hlt).symm
          · intro r info hr
            rw [hmain] at hr
            simp only [Except.ok.injEq, Prod.mk.injEq] at hr
            exact hr.1.symm
          · intro e2 he
            rw [hmain] at he
            exact absurd he (by simp)
          · intro r info hr
            rw [hmain] at hr
            simp only [Except.ok.injEq, Prod.mk.injEq] at hr
            obtain ⟨hr1, hr2⟩ := hr
            rw [step_ok_eq (h.trains selfRef) p v action dt t j s
                hA.1 hA.2 hdt hm,
              hmain, ← hr1, ← hr2]
            simp [PyHeap.writeArray, PyHeap.allocArray]
      · have hframe := step_frame_of_error h selfRef stateRef action dt t j s
          (.assertionError "Time step must be positive")
          (by
            unfold stepRef
            rw [if_neg (not_not_intro hA), hst]
            simp only [if_pos hdt])
          (by
            rw [hst]
            exact step_dt_error _ _ _ _ _ _ _ _ hA hdt)
        rwa [hst] at hframe
    · have hframe := step_frame_of_error h selfRef stateRef action dt t j s
        (.assertionError "State must be a 2D array with shape (2,)")
        (by unfold stepRef; rw [if_neg (not_not_intro hA), hst])
        (step_shape_error _ _ _ _ _ _ _ hA (by rw [hst]; simp))
      rwa [hst] at hframe
  · refine step_frame_of_error h selfRef stateRef action dt t j s
      (.assertionError "Action must be in the range [-1, 1]") ?_ ?_
    · unfold stepRef
      rw [if_pos hA]
    · exact step_action_error _ _ _ _ _ _ _ hA

/-- A one-train, one-array heap for exercising the frame theorem: the train
object of `example.py` at address `0` and its state array `[0, 0]` at array
address `0`, with `1` the next free array address. -/
noncomputable def exampleHeap : PyHeap :=
  { trains := fun _ => exampleTrain
    arrays := fun _ => [0, 0]
    nextArray := 1 }

/-- C9 witness: the frame theorem applied to the one-train heap — the train
constants and the caller's state array at address `0` are unchanged by the
call, and any returned state reference is distinct from the caller's. -/
theorem step_frame_witness :
    (stepRef exampleHeap 0 0 0 1 [] [] []).1.trains = exampleHeap.trains ∧
    (stepRef exampleHeap 0 0 0 1 [] [] []).1.arrays 0
      = exampleHeap.arrays 0 ∧
    ∀ r info, (stepRef exampleHeap 0 0 0 1 [] [] []).2 = .ok (r, info) →
      r ≠ 0 := by
  have hf := step_frame exampleHeap 0 0 0 1 [] [] []
  have h01 : (0 : ℕ) < exampleHeap.nextArray := by
    norm_num [exampleHeap]
  exact ⟨hf.1, hf.2.1 0 h01,
    fun r info hr => (hf.2.2.1 h01).2 r info hr⟩

/-- C10: under the preconditions (two-element state, action in `[-1, 1]`,
positive `dt`) and the data-model invariant `mass > 0`, `step` always
returns normally: it produces a state, and in particular never raises the
curvature law's division-by-zero error, since it always passes the
hard-coded radius `1`. -/
theorem step_total_on_preconditions (self : ATOSingleTrain)
    (state : List ℝ) (action dt : ℝ) (t j s : PyDict)
    (h1 : -1 ≤ action) (h2 : action ≤ 1) (hs : state.length = 2)
    (h3 : 0 < dt) (hm : 0 < self.train_mass) :
    (stepState (self.step state action dt t j s)).isSome = true ∧
      self.step state action dt t j s ≠ .error .zeroDivisionError := by
  obtain ⟨p, v, rfl⟩ := List.length_eq_two.mp hs
  rw [step_ok_eq self p v action dt t j s h1 h2 h3 (ne_of_gt hm)]
  exact ⟨rfl, fun h => Except.noConfusion h⟩

/-- C10 witness: totality applied to the example train at rest with zero
action. -/
theorem step_total_on_preconditions_witness :
    (-1 : ℝ) ≤ 0 ∧ (0 : ℝ) ≤ 1 ∧ ([(0 : ℝ), 0]).length = 2 ∧
      (0 : ℝ) < 1 ∧ 0 < exampleTrain.train_mass ∧
      (stepState (exampleTrain.step [0, 0] 0 1 [] [] [])).isSome = true := by
  have hm : 0 < exampleTrain.train_mass := by norm_num [exampleTrain]
  exact ⟨by norm_num, by norm_num, rfl, by norm_num, hm,
    (step_total_on_preconditions exampleTrain [0, 0] 0 1 [] [] []
      (by norm_num) (by norm_num) rfl (by norm_num) hm).1⟩
